import Mathlib

/-!
Shallow embedding of the result-aggregation and scoring engine of the
AI-code-reviewer repository (backend/main.py, backend/ci_review.py and the
analyzer adapters under backend/analyzers/), together with proofs settling
the specification claims about it.

External effects (subprocess invocations of semgrep / eslint / bandit, and
CPython's ast parser) are modelled as oracle parameters: each adapter call
site receives either the value the call returned or the exception message it
raised, exactly where the Python code observes them.
-/

/-- Canonical severity scale, the `Severity = Literal["low","medium","high"]`
of backend/main.py. -/
inductive Severity where
  | low
  | medium
  | high
deriving DecidableEq, Repr

/-- Ternary merge verdict, `Literal["block_merge","review_required","ok"]`. -/
inductive Verdict where
  | block_merge
  | review_required
  | ok
deriving DecidableEq, Repr

/-- Normalized finding, the `ReviewItem` pydantic model of backend/main.py. -/
structure Finding where
  title : String
  description : String
  severity : Severity
deriving DecidableEq, Repr

/-- Python `str.strip()` whitespace set (space, tab, newline, return,
vertical tab, form feed). -/
def pySpace (c : Char) : Bool :=
  c == ' ' || c == '\t' || c == '\n' || c == '\r' || c == '\x0b' || c == '\x0c'

/-- Python `str.strip()`: drop whitespace from both ends. -/
def trimStr (s : String) : String :=
  ⟨((s.data.dropWhile pySpace).reverse.dropWhile pySpace).reverse⟩

/-- Python `str.lower()` (ASCII, which is all the code compares against). -/
def lowerStr (s : String) : String :=
  ⟨s.data.map Char.toLower⟩

/-- Python `str.upper()` (ASCII, which is all the code compares against). -/
def upperStr (s : String) : String :=
  ⟨s.data.map Char.toUpper⟩

/-- Python slicing `s[:n]`. -/
def takeStr (s : String) (n : Nat) : String :=
  ⟨s.data.take n⟩

/-- Whether the pattern list occurs at the head of the text list. -/
def listLeadsWith : List Char → List Char → Bool
  | [], _ => true
  | _ :: _, [] => false
  | p :: ps, t :: ts => p == t && listLeadsWith ps ts

/-- Whether the pattern list occurs anywhere in the text list. -/
def listHasSub (pat : List Char) : List Char → Bool
  | [] => listLeadsWith pat []
  | t :: ts => listLeadsWith pat (t :: ts) || listHasSub pat ts

/-- Python substring test `sub in s`. -/
def strContains (s sub : String) : Bool :=
  listHasSub sub.data s.data

/-- Python `x or d` for an optional string: `None` and `""` both fall back. -/
def pyOrStr (x : Option String) (d : String) : String :=
  match x with
  | none => d
  | some s => if s = "" then d else s

/-- Python `str(x)` for an optional string: `None` renders as `"None"`. -/
def pyStr (x : Option String) : String :=
  match x with
  | none => "None"
  | some s => s

/-- Python `x or 0` for an optional line number. -/
def pyOrNat (x : Option Nat) (d : Nat) : Nat :=
  match x with
  | none => d
  | some n => n

/-- `penalty` from backend/main.py lines 428-433 (and ci_review.py 102-107):
2 for high, 1 for medium, 0 for low. -/
def penalty : Severity → Nat
  | .high => 2
  | .medium => 1
  | .low => 0

/-- Sum of per-finding penalties over a bucket list. -/
def sumPenalty (items : List Finding) : Nat :=
  (items.map (fun it => penalty it.severity)).sum

/-- `max(1, min(10, 10 - total_pen))`, the clamp of main.py line 444 and
ci_review.py line 114. -/
def clampScore (totalPen : Nat) : Int :=
  max 1 (min 10 (10 - (totalPen : Int)))

/-- The scoring formula shared verbatim by backend/main.py lines 435-444 and
backend/ci_review.py lines 109-114: per-bucket penalty sums, the
best-practices sum capped at 2, then clamped into [1,10]. -/
def scoreOf (security bugs perf best : List Finding) : Int :=
  clampScore (sumPenalty security + sumPenalty bugs + sumPenalty perf +
    min (sumPenalty best) 2)

/-- The recommendation decision of main.py lines 459-465 and ci_review.py
lines 119-125: any high-severity security finding forces block_merge,
otherwise score <= 6 means review_required, otherwise ok. -/
def recommend (security : List Finding) (score : Int) : Verdict :=
  if security.any (fun it => it.severity == .high) then .block_merge
  else if score ≤ 6 then .review_required
  else .ok

/-- One step of Python dict insertion `out[it.title] = it` on the list of
current dict values in key-insertion order. -/
def dictInsert (d : List Finding) (it : Finding) : List Finding :=
  if d.any (fun x => x.title == it.title) then
    d.map (fun x => if x.title == it.title then it else x)
  else
    d ++ [it]

/-- Dedup-by-title of main.py lines 423-426 and ci_review.py lines 88-92:
build a dict keyed by title (later entries overwrite earlier values) and
take its values. -/
def dedupe (items : List Finding) : List Finding :=
  items.foldl dictInsert []

/-- Titles of a finding list, the dict-key view used by deduplication. -/
def titles (items : List Finding) : List String :=
  items.map (fun it => it.title)

/-- First entry carrying the given title, the dict-lookup view. -/
def findByTitle (items : List Finding) (t : String) : Option Finding :=
  items.find? (fun it => it.title == t)

/-- Last entry carrying the given title. -/
def lastByTitle (items : List Finding) (t : String) : Option Finding :=
  findByTitle items.reverse t

/-- Outcome of a call into an external adapter: the Python call either raised
an exception with a message or returned a value. -/
inductive Outcome (α : Type) where
  | raised (msg : String)
  | returned (val : α)

/-- The dict shape `{"ok": ..., "error": ..., "issues": [...]}` returned by
run_eslint and run_bandit. -/
structure ToolResult (α : Type) where
  ok : Bool
  error : Option String
  issues : List α

/-- `Path(p).name`: basename of a path, the component after the last posix
separator (trailing-separator normalization is not needed by any claim). -/
def pathName (s : String) : String :=
  ⟨(s.data.reverse.takeWhile (fun c => c != '/')).reverse⟩

/-- `_pretty_path` of semgrep_runner.py / bandit_runner.py / eslint_runner.py:
empty stays empty, otherwise the basename. -/
def prettyPath (s : String) : String :=
  if s = "" then "" else pathName s

/-- One raw Semgrep result record, with the fields
semgrep_results_to_categories reads (absent dict keys are `none`). -/
structure SemgrepResult where
  check_id : Option String
  message : Option String
  severity : Option String
  path : Option String
  startLine : Option Nat
  endLine : Option Nat

/-- `_normalize_severity` of semgrep_runner.py lines 84-90. -/
def normalizeSeverity (semgrepSev : String) : Severity :=
  let s := upperStr semgrepSev
  if s = "ERROR" || s = "CRITICAL" || s = "HIGH" then .high
  else if s = "WARNING" || s = "MEDIUM" then .medium
  else .low

/-- Title of a Semgrep finding: the check_id, `"semgrep.issue"` when absent
(semgrep_runner.py line 104). -/
def semgrepTitle (f : SemgrepResult) : String :=
  f.check_id.getD "semgrep.issue"

/-- The `where` location string of semgrep_runner.py lines 112-117:
basename, then `:start` when start is truthy, then `-end` when end is truthy
and differs from start. -/
def semgrepWhere (f : SemgrepResult) : String :=
  let pf := prettyPath (f.path.getD "")
  match f.startLine with
  | none => pf
  | some start =>
    if start ≠ 0 then
      pf ++ ":" ++ toString start ++
        (match f.endLine with
         | none => ""
         | some e => if e ≠ 0 ∧ e ≠ start then "-" ++ toString e else "")
    else pf

/-- The normalized item one Semgrep record becomes
(semgrep_runner.py lines 104-123). -/
def semgrepItemOf (f : SemgrepResult) : Finding :=
  { title := semgrepTitle f
    description :=
      pyOrStr (some (f.message.getD "")) "Semgrep finding" ++ " (" ++
        semgrepWhere f ++ ")"
    severity := normalizeSeverity (f.severity.getD "") }

/-- The bucket test of semgrep_runner.py lines 128-132: lowercased check_id
containing "no-console" or "console-log" goes to best practices. -/
def isConsoleRule (f : SemgrepResult) : Bool :=
  let cid := lowerStr (semgrepTitle f)
  strContains cid "no-console" || strContains cid "console-log"

/-- Output buckets of the Semgrep categorizer. -/
structure SemgrepCats where
  security : List Finding
  best_practices : List Finding
deriving DecidableEq, Repr

/-- semgrep_results_to_categories of semgrep_runner.py lines 93-137: each
record becomes one item, console-rule items append to best_practices and
every other item appends to security. -/
def semgrepResultsToCategories : List SemgrepResult → SemgrepCats
  | [] => ⟨[], []⟩
  | f :: rest =>
    let item := semgrepItemOf f
    let c := semgrepResultsToCategories rest
    if isConsoleRule f then ⟨c.security, item :: c.best_practices⟩
    else ⟨item :: c.security, c.best_practices⟩

/-- One ESLint issue dict as built by run_eslint (eslint_runner.py 105-115);
fields the categorizer reads. -/
structure EslintIssue where
  rule_id : Option String
  severity_num : Nat
  message : Option String
  file : Option String
  line : Option Nat

/-- Output buckets of the ESLint categorizer. -/
structure EslintCats where
  security : List Finding
  bugs : List Finding
  best_practices : List Finding
  performance : List Finding
deriving DecidableEq, Repr

/-- Location suffix `(<basename>:<line>)` used by eslint_to_schema. -/
def eslintLoc (it : EslintIssue) : String :=
  " (" ++ prettyPath (pyOrStr it.file "") ++ ":" ++
    toString (pyOrNat it.line 0) ++ ")"

/-- eslint_to_schema of eslint_runner.py lines 120-186 on the issues list:
`no-eval` is skipped (Semgrep already reports it), `@typescript-eslint/no-explicit-any`
becomes a medium best-practices item, severity 2 becomes a high bug, anything
else a medium best-practices item; security and performance never receive
anything. -/
def eslintCatsOfIssues : List EslintIssue → EslintCats
  | [] => ⟨[], [], [], []⟩
  | it :: rest =>
    let ruleId := pyOrStr it.rule_id "eslint"
    let rule := lowerStr ruleId
    let c := eslintCatsOfIssues rest
    if rule = "no-eval" then c
    else if rule = "@typescript-eslint/no-explicit-any" then
      { c with best_practices :=
          { title := "eslint." ++ ruleId
            description := pyStr it.message ++ eslintLoc it
            severity := .medium } :: c.best_practices }
    else if it.severity_num = 2 then
      { c with bugs :=
          { title := "eslint." ++ ruleId
            description := pyStr it.message ++ eslintLoc it
            severity := .high } :: c.bugs }
    else
      { c with best_practices :=
          { title := "eslint." ++ ruleId
            description := pyStr it.message ++ eslintLoc it
            severity := .medium } :: c.best_practices }

/-- eslint_to_schema applied to a run_eslint result dict
(it reads only the issues list). -/
def eslintToSchema (res : ToolResult EslintIssue) : EslintCats :=
  eslintCatsOfIssues res.issues

/-- One Bandit issue dict as built by run_bandit (bandit_runner.py 56-69). -/
structure BanditIssue where
  test_id : Option String
  test_name : Option String
  severity : Option String
  file : Option String
  line : Option Nat
  message : Option String

/-- bandit_to_schema of bandit_runner.py lines 74-107: every issue becomes a
security finding; severities outside the canonical scale collapse to low. -/
def banditSecurityOfIssues : List BanditIssue → List Finding
  | [] => []
  | it :: rest =>
    let sev := lowerStr (pyOrStr it.severity "low")
    let sev' : Severity :=
      if sev = "high" then .high
      else if sev = "medium" then .medium
      else .low
    { title := "bandit." ++ pyOrStr it.test_id "bandit"
      description :=
        pyOrStr it.test_name "issue" ++ ": " ++ pyStr it.message ++ " (" ++
          prettyPath (pyOrStr it.file "") ++ ":" ++
          toString (pyOrNat it.line 0) ++ ")"
      severity := sev' } :: banditSecurityOfIssues rest

/-- The `ReviewResponse` model of backend/main.py (the tool-usage flag and
error note, score, summary, verdict and the four bucket lists). -/
structure ReviewResponse where
  ai_used : Bool
  ai_error : Option String
  score : Int
  summary : String
  verdict : Verdict
  bugs : List Finding
  security : List Finding
  performance : List Finding
  best_practices : List Finding
deriving DecidableEq, Repr

/-- `req.language.strip().lower() in ["python", "py"]` (main.py line 303). -/
def isPython (language : String) : Bool :=
  let l := lowerStr (trimStr language)
  l = "python" || l = "py"

/-- Non-blank stripped lines of the content (main.py line 328). -/
def nonBlankLines (content : String) : List String :=
  ((content.splitOn "\n").map trimStr).filter (fun l => l ≠ "")

/-- The trivial-code test of main.py line 329: exactly one non-blank line,
shorter than 10 characters, containing none of the structural characters. -/
def isTrivial (content : String) : Bool :=
  match nonBlankLines content with
  | [l] =>
    l.length < 10 &&
      !(l.data.any (fun c =>
        c == '(' || c == ')' || c == '[' || c == ']' || c == '\x7b' ||
          c == '\x7d' || c == ':' || c == '='))
  | _ => false

/-- Response for blank input (main.py lines 281-298). -/
def emptyInputResponse : ReviewResponse :=
  { ai_used := true, ai_error := none, score := 1
    summary := "No code provided. Paste some code to get a review."
    verdict := .review_required
    bugs := [], security := [], performance := []
    best_practices :=
      [{ title := "Provide input code"
         description := "Paste a snippet or a diff to review."
         severity := .low }] }

/-- Response for invalid Python syntax (main.py lines 305-323). -/
def syntaxErrorResponse (err : String) : ReviewResponse :=
  { ai_used := true, ai_error := none, score := 2
    summary := "Python code has syntax errors: " ++ err
    verdict := .review_required
    bugs := [{ title := "Syntax Error", description := err, severity := .high }]
    security := [], performance := [], best_practices := [] }

/-- Response for trivial one-line input (main.py lines 330-346). -/
def trivialResponse : ReviewResponse :=
  { ai_used := true, ai_error := none, score := 3
    summary := "Code snippet is too trivial to review. Please provide meaningful code with logic."
    verdict := .review_required
    bugs :=
      [{ title := "Trivial Code"
         description := "Single identifier or very short snippet is not meaningful code. Add functions, classes, or logic."
         severity := .medium }]
    security := [], performance := [], best_practices := [] }

/-- Degraded fallback response of main.py lines 487-504, produced when the
outer try-block catches an exception. -/
def fallbackResponse (msg : String) : ReviewResponse :=
  { ai_used := false
    ai_error := some ("analysis_failed: " ++ takeStr msg 250)
    score := 5
    summary := "Analysis failed; returned fallback response."
    verdict := .review_required
    bugs := [], security := [], performance := []
    best_practices :=
      [{ title := "Analysis failed"
         description := "Could not run automated analysis tools on the provided code."
         severity := .medium }] }

/-- Result of the ESLint block of main.py lines 371-390: an optional failure
note plus the four categorized lists. -/
structure EslintBlockOut where
  note : Option String
  cats : EslintCats

/-- The ESLint block of main.py lines 371-390: a raised exception or an
`ok=false` result yields a truncated failure note and empty lists, a
successful result is categorized. Note that `str(eslint_res.get('error', 'unknown'))`
renders a `None` error field as the string "None". -/
def eslintBlock (out : Outcome (ToolResult EslintIssue)) : EslintBlockOut :=
  match out with
  | .raised e => ⟨some ("eslint_failed: " ++ takeStr e 160), ⟨[], [], [], []⟩⟩
  | .returned res =>
    if !res.ok then
      ⟨some ("eslint_failed: " ++
        takeStr (match res.error with | none => "unknown" | some s => s) 160),
        ⟨[], [], [], []⟩⟩
    else ⟨none, eslintToSchema res⟩

/-- The Bandit block of main.py lines 395-407 (entered only for Python): a
raised exception or `ok=false` yields a truncated note, success yields the
security findings. -/
def banditBlock (out : Outcome (ToolResult BanditIssue)) :
    Option String × List Finding :=
  match out with
  | .raised e => (some ("bandit_failed: " ++ takeStr e 160), [])
  | .returned res =>
    if !res.ok then
      (some ("bandit_failed: " ++
        takeStr (match res.error with | none => "unknown" | some s => s) 160),
        [])
    else (none, banditSecurityOfIssues res.issues)

/-- `"; ".join(notes)`. -/
def joinNotes : List String → String
  | [] => ""
  | [s] => s
  | s :: rest => s ++ "; " ++ joinNotes rest

/-- The try-block of main.py lines 359-506, from the Semgrep invocation to
the response: a Semgrep exception escapes to the outer handler and produces
the degraded fallback; ESLint and Bandit failures are caught locally and
recorded as notes; the buckets are merged, a dedup-by-title feeds only the
summary count, the score is computed from the unmerged bucket lists, and the
response returns those lists as-is. -/
def reviewAggregate (isPy : Bool) (semgrepOut : Outcome (List SemgrepResult))
    (eslintOut : Outcome (ToolResult EslintIssue))
    (banditOut : Outcome (ToolResult BanditIssue)) : ReviewResponse :=
  match semgrepOut with
  | .raised e => fallbackResponse e
  | .returned results =>
    let scat := semgrepResultsToCategories results
    let eb := eslintBlock eslintOut
    let bb := if isPy then banditBlock banditOut else (none, [])
    let securityItems := scat.security ++ eb.cats.security ++ bb.2
    let bugsItems := eb.cats.bugs
    let bestItems := scat.best_practices ++ eb.cats.best_practices
    let perfItems := eb.cats.performance
    let allItems :=
      dedupe (securityItems ++ bugsItems ++ bestItems ++ perfItems)
    let score := scoreOf securityItems bugsItems perfItems bestItems
    let summary :=
      if allItems.length = 0 then "No major issues found by automated checks."
      else "Automated checks found issues. Review before merging."
    let verdict := recommend securityItems score
    let notes := eb.note.toList ++ bb.1.toList
    { ai_used := true
      ai_error := if notes.isEmpty then none else some (joinNotes notes)
      score := score
      summary := summary
      verdict := verdict
      bugs := bugsItems
      security := securityItems
      performance := perfItems
      best_practices := bestItems }

/-- The /review endpoint of main.py lines 278-506. External observations are
oracle parameters: `pySyntaxError` is what validate_python_syntax (CPython's
ast.parse) returns, consulted only for Python input; the three adapter
outcomes are what the subprocess-backed runners return or raise. -/
def review (language content : String) (pySyntaxError : Option String)
    (semgrepOut : Outcome (List SemgrepResult))
    (eslintOut : Outcome (ToolResult EslintIssue))
    (banditOut : Outcome (ToolResult BanditIssue)) : ReviewResponse :=
  if trimStr content = "" then emptyInputResponse
  else
    match (if isPython language then pySyntaxError else none) with
    | some err => syntaxErrorResponse err
    | none =>
      if isTrivial content then trivialResponse
      else reviewAggregate (isPython language) semgrepOut eslintOut banditOut

/-- Accumulator of the per-target ESLint loop of ci_review.py lines 38-60. -/
structure CiEslintAcc where
  err : Option String
  security : List Finding
  bugs : List Finding
  best : List Finding
  perf : List Finding

/-- The ESLint loop of ci_review.py lines 41-60: targets run in order, each
success appends its categorized findings, and the first failure (exception or
`ok=false`) records a truncated error and breaks out of the loop, keeping
what was accumulated so far. -/
def ciEslintGo (acc : CiEslintAcc) :
    List (Outcome (ToolResult EslintIssue)) → CiEslintAcc
  | [] => acc
  | out :: rest =>
    match out with
    | .raised e => { acc with err := some (takeStr e 200) }
    | .returned res =>
      if !res.ok then
        { acc with err := some (takeStr (pyOrStr res.error "unknown") 200) }
      else
        let c := eslintToSchema res
        ciEslintGo
          { acc with
            security := acc.security ++ c.security
            bugs := acc.bugs ++ c.bugs
            best := acc.best ++ c.best_practices
            perf := acc.perf ++ c.performance }
          rest

/-- The ESLint loop started from the empty accumulator, one outcome per
existing target directory. -/
def ciEslintAccOf (outs : List (Outcome (ToolResult EslintIssue))) :
    CiEslintAcc :=
  ciEslintGo ⟨none, [], [], [], []⟩ outs

/-- The Bandit block of ci_review.py lines 65-75. -/
def ciBanditBlock (out : Outcome (ToolResult BanditIssue)) :
    Option String × List Finding :=
  match out with
  | .raised e => (some (takeStr e 200), [])
  | .returned res =>
    if !res.ok then (some (takeStr (pyOrStr res.error "unknown") 200), [])
    else (none, banditSecurityOfIssues res.issues)

/-- Deduplicated CI security bucket (ci_review.py lines 80 and 94). -/
def ciSecurityBucket (s : List SemgrepResult)
    (e : List (Outcome (ToolResult EslintIssue)))
    (b : Outcome (ToolResult BanditIssue)) : List Finding :=
  dedupe ((semgrepResultsToCategories s).security ++ (ciEslintAccOf e).security
    ++ (ciBanditBlock b).2)

/-- Deduplicated CI bugs bucket (ci_review.py lines 81 and 95). -/
def ciBugsBucket (e : List (Outcome (ToolResult EslintIssue))) : List Finding :=
  dedupe (ciEslintAccOf e).bugs

/-- Deduplicated CI best-practices bucket (ci_review.py lines 82 and 96). -/
def ciBestBucket (s : List SemgrepResult)
    (e : List (Outcome (ToolResult EslintIssue))) : List Finding :=
  dedupe ((semgrepResultsToCategories s).best_practices ++ (ciEslintAccOf e).best)

/-- Deduplicated CI performance bucket (ci_review.py lines 83 and 97). -/
def ciPerfBucket (e : List (Outcome (ToolResult EslintIssue))) : List Finding :=
  dedupe (ciEslintAccOf e).perf

/-- CI score (ci_review.py lines 102-114): the shared formula applied to the
deduplicated, uncapped buckets. -/
def ciScore (s : List SemgrepResult)
    (e : List (Outcome (ToolResult EslintIssue)))
    (b : Outcome (ToolResult BanditIssue)) : Int :=
  scoreOf (ciSecurityBucket s e b) (ciBugsBucket e) (ciPerfBucket e)
    (ciBestBucket s e)

/-- The JSON document plus exit code produced by ci_review.py main(). -/
structure CiResult where
  ai_error : Option String
  score : Int
  summary : String
  verdict : Verdict
  countSecurity : Nat
  countBugs : Nat
  countBest : Nat
  countPerf : Nat
  security : List Finding
  bugs : List Finding
  best_practices : List Finding
  performance : List Finding
  exitCode : Nat
deriving DecidableEq, Repr

/-- ci_review.py main(), lines 11-163, after the Semgrep scan parsed
successfully (a Semgrep exception aborts the process with a traceback and
produces no document at all): categorize, merge, dedupe, score, recommend,
then emit counts of the deduplicated buckets and the bucket lists capped to
50 entries, with exit code 2 exactly for block_merge. -/
def ciMain (s : List SemgrepResult)
    (e : List (Outcome (ToolResult EslintIssue)))
    (b : Outcome (ToolResult BanditIssue)) : CiResult :=
  let securityItems := ciSecurityBucket s e b
  let bugsItems := ciBugsBucket e
  let bestItems := ciBestBucket s e
  let perfItems := ciPerfBucket e
  let score := ciScore s e b
  let verdict := recommend securityItems score
  let eslintErr := (ciEslintAccOf e).err
  let banditErr := (ciBanditBlock b).1
  let notes :=
    (eslintErr.map (fun x => "eslint_failed: " ++ x)).toList ++
      (banditErr.map (fun x => "bandit_failed: " ++ x)).toList
  let hasAny :=
    !securityItems.isEmpty || !bugsItems.isEmpty || !bestItems.isEmpty ||
      !perfItems.isEmpty
  { ai_error := if notes.isEmpty then none else some (joinNotes notes)
    score := score
    summary :=
      if hasAny then "Automated checks found issues. Review before merging."
      else "No major issues found by automated checks."
    verdict := verdict
    countSecurity := securityItems.length
    countBugs := bugsItems.length
    countBest := bestItems.length
    countPerf := perfItems.length
    security := securityItems.take 50
    bugs := bugsItems.take 50
    best_practices := bestItems.take 50
    performance := perfItems.take 50
    exitCode := if verdict == .block_merge then 2 else 0 }

/-- A Semgrep eval-rule hit at a given line; two hits of the same rule at
different lines share their title (the check_id). -/
def semgrepEvalAt (n : Nat) : SemgrepResult :=
  { check_id := some "javascript.lang.security.audit.eval-detected"
    message := some "Detected eval usage"
    severity := some "ERROR"
    path := some "main.js"
    startLine := some n
    endLine := some n }

/-- An empty successful ESLint run. -/
def eslintCleanResult : ToolResult EslintIssue :=
  { ok := true, error := none, issues := [] }

/-- An empty successful Bandit run. -/
def banditCleanResult : ToolResult BanditIssue :=
  { ok := true, error := none, issues := [] }

/-- The /review aggregation outcome for a run where Semgrep reports the same
rule twice (two eval calls), with clean ESLint and no Bandit (non-Python). -/
def dupRunResponse : ReviewResponse :=
  reviewAggregate false (.returned [semgrepEvalAt 1, semgrepEvalAt 2])
    (.returned eslintCleanResult) (.returned banditCleanResult)

/-- A Semgrep record whose rule id matches no known rule class. -/
def unmatchedSemgrepResult : SemgrepResult :=
  { check_id := some "python.lang.correctness.useless-comparison"
    message := some "Useless comparison"
    severity := some "WARNING"
    path := some "main.py"
    startLine := some 3
    endLine := some 3 }

/-- One error-level ESLint issue. -/
def eslintOkIssue : EslintIssue :=
  { rule_id := some "semi"
    severity_num := 2
    message := some "Missing semicolon."
    file := some "main.js"
    line := some 3 }

/-- A successful ESLint run carrying one error-level issue. -/
def eslintOkResult : ToolResult EslintIssue :=
  { ok := true, error := none, issues := [eslintOkIssue] }

/-- One high-severity Bandit issue. -/
def banditOkIssue : BanditIssue :=
  { test_id := some "B602"
    test_name := some "subprocess_popen_with_shell_equals_true"
    severity := some "high"
    file := some "main.py"
    line := some 7
    message := some "subprocess call with shell=True identified" }

/-- A successful Bandit run carrying one high-severity issue. -/
def banditOkResult : ToolResult BanditIssue :=
  { ok := true, error := none, issues := [banditOkIssue] }

/-- The exception message run_semgrep_on_folder raises when Semgrep emits no
JSON (semgrep_runner.py lines 53-56). -/
def semgrepFailMsg : String :=
  "Semgrep produced no JSON output. returncode=2 stderr="

/-- The /review outcome for a Python run in which Semgrep raises while both
ESLint and Bandit succeed with findings. -/
def semgrepFailResponse : ReviewResponse :=
  reviewAggregate true (.raised semgrepFailMsg) (.returned eslintOkResult)
    (.returned banditOkResult)

/-- Ten distinct medium-severity best-practice findings. -/
def tenMediumBest : List Finding :=
  (List.range 10).map (fun n =>
    { title := "bp" ++ toString n, description := "", severity := .medium })

/-- First occurrence of a duplicated title. -/
def dupFirst : Finding :=
  { title := "dup.title", description := "first occurrence", severity := .high }

/-- Second occurrence of the same title with different content. -/
def dupSecond : Finding :=
  { title := "dup.title", description := "second occurrence", severity := .low }

/-- Overwriting the value stored under an existing key leaves the key list
of the dict unchanged. -/
theorem titles_map_update (d : List Finding) (x : Finding) :
    titles (d.map (fun y => if y.title == x.title then x else y)) = titles d := by
  induction d with
  | nil => rfl
  | cons a as ih =>
    simp only [titles, List.map_cons] at ih ⊢
    refine congrArg₂ _ ?_ ih
    by_cases h : a.title == x.title
    · simp only [h, if_true]
      exact (eq_of_beq h).symm
    · simp only [h]
      rfl

/-- Key list of the dict after one insertion: unchanged when the key was
present, extended by the new key otherwise. -/
theorem titles_dictInsert (d : List Finding) (x : Finding) :
    titles (dictInsert d x) =
      if d.any (fun y => y.title == x.title) then titles d
      else titles d ++ [x.title] := by
  unfold dictInsert
  cases h : d.any (fun y => y.title == x.title)
  · rw [if_neg Bool.false_ne_true, if_neg Bool.false_ne_true]
    simp [titles]
  · rw [if_pos rfl, if_pos rfl]
    exact titles_map_update d x

/-- A positive `any` test over titles is membership of the title. -/
theorem any_title_iff (d : List Finding) (t : String) :
    d.any (fun y => y.title == t) = true ↔ t ∈ titles d := by
  simp only [List.any_eq_true, titles, List.mem_map, beq_iff_eq]

/-- Insertion preserves distinctness of the dict keys. -/
theorem nodup_titles_dictInsert (d : List Finding) (x : Finding)
    (h : (titles d).Nodup) : (titles (dictInsert d x)).Nodup := by
  rw [titles_dictInsert]
  cases hany : d.any (fun y => y.title == x.title)
  · have hx : x.title ∉ titles d := by
      intro hmem
      have := (any_title_iff d x.title).mpr hmem
      rw [hany] at this
      exact Bool.false_ne_true this
    simp only [Bool.false_eq_true, if_false]
    rw [List.nodup_append]
    refine ⟨h, List.nodup_singleton _, ?_⟩
    intro a ha hb
    rw [List.mem_singleton] at hb
    exact hx (hb ▸ ha)
  · simpa using h

/-- Membership in the dict keys after one insertion. -/
theorem mem_titles_dictInsert (d : List Finding) (x : Finding) (t : String) :
    t ∈ titles (dictInsert d x) ↔ t ∈ titles d ∨ t = x.title := by
  rw [titles_dictInsert]
  cases hany : d.any (fun y => y.title == x.title)
  · simp [List.mem_append]
  · have hx : x.title ∈ titles d := (any_title_iff d x.title).mp hany
    rw [if_pos rfl]
    constructor
    · exact Or.inl
    · rintro (h | rfl)
      · exact h
      · exact hx

/-- The dict keys produced by folding insertions: old keys plus the titles
of the processed list. -/
theorem mem_titles_foldl (l : List Finding) :
    ∀ (acc : List Finding) (t : String),
      t ∈ titles (List.foldl dictInsert acc l) ↔ t ∈ titles acc ∨ t ∈ titles l := by
  induction l with
  | nil => simp [titles]
  | cons x xs ih =>
    intro acc t
    simp only [List.foldl_cons]
    rw [ih, mem_titles_dictInsert]
    simp only [titles, List.map_cons, List.mem_cons]
    tauto

/-- Folding insertions preserves distinctness of the dict keys. -/
theorem nodup_titles_foldl (l : List Finding) :
    ∀ acc : List Finding, (titles acc).Nodup →
      (titles (List.foldl dictInsert acc l)).Nodup := by
  induction l with
  | nil => exact fun acc h => h
  | cons x xs ih =>
    intro acc h
    exact ih _ (nodup_titles_dictInsert acc x h)

/-- Deduplication yields pairwise-distinct titles. -/
theorem dedupe_titles_nodup (l : List Finding) : (titles (dedupe l)).Nodup :=
  nodup_titles_foldl l [] (by simp [titles])

/-- Deduplication neither drops nor invents titles. -/
theorem mem_titles_dedupe (l : List Finding) (t : String) :
    t ∈ titles (dedupe l) ↔ t ∈ titles l := by
  unfold dedupe
  rw [mem_titles_foldl]
  simp [titles]

/-- Lookup after one insertion: the inserted value under its key, the old
dict everywhere else. -/
theorem findByTitle_update_ne (d : List Finding) (x : Finding) (t : String)
    (ht : t ≠ x.title) :
    findByTitle (d.map (fun y => if y.title == x.title then x else y)) t =
      findByTitle d t := by
  induction d with
  | nil => rfl
  | cons a as ih =>
    rw [List.map_cons]
    unfold findByTitle at ih ⊢
    cases ha : a.title == x.title
    · rw [if_neg Bool.false_ne_true]
      cases hat : a.title == t
      · rw [List.find?_cons_of_neg _ (by simp [hat]),
          List.find?_cons_of_neg _ (by simp [hat])]
        exact ih
      · rw [List.find?_cons_of_pos _ (by simp [hat]),
          List.find?_cons_of_pos _ (by simp [hat])]
    · have hax : a.title = x.title := eq_of_beq ha
      rw [if_pos rfl]
      have h1 : ¬(x.title == t) = true := by
        simp only [beq_iff_eq]
        exact fun h => ht h.symm
      have h2 : ¬(a.title == t) = true := by
        simp only [beq_iff_eq, hax]
        exact fun h => ht h.symm
      rw [List.find?_cons_of_neg _ (by exact h1),
        List.find?_cons_of_neg _ (by exact h2)]
      exact ih

/-- Lookup after overwriting an existing key finds the new value. -/
theorem findByTitle_update_self (d : List Finding) (x : Finding)
    (hx : ∃ y ∈ d, y.title = x.title) :
    findByTitle (d.map (fun y => if y.title == x.title then x else y))
      x.title = some x := by
  induction d with
  | nil => simp at hx
  | cons a as ih =>
    rw [List.map_cons]
    unfold findByTitle at ih ⊢
    cases ha : a.title == x.title
    · rw [if_neg Bool.false_ne_true, List.find?_cons_of_neg _ (by simp [ha])]
      apply ih
      rcases hx with ⟨y, hy, hyt⟩
      rcases List.mem_cons.mp hy with rfl | hy'
      · exact absurd hyt (by simpa using ha)
      · exact ⟨y, hy', hyt⟩
    · rw [if_pos rfl, List.find?_cons_of_pos _ (by simp)]

/-- Lookup commutes with dict insertion: the new key maps to the inserted
value, all other keys keep their bindings. -/
theorem findByTitle_dictInsert (d : List Finding) (x : Finding) (t : String) :
    findByTitle (dictInsert d x) t =
      if t = x.title then some x else findByTitle d t := by
  unfold dictInsert
  cases hany : d.any (fun y => y.title == x.title)
  · rw [if_neg Bool.false_ne_true]
    unfold findByTitle
    rw [List.find?_append]
    by_cases ht : t = x.title
    · have hnone : List.find? (fun it => it.title == t) d = none := by
        rw [List.find?_eq_none]
        intro y hy hyt
        have : d.any (fun y => y.title == x.title) = true :=
          List.any_eq_true.mpr ⟨y, hy, by rw [← ht]; exact hyt⟩
        rw [hany] at this
        exact Bool.false_ne_true this
      rw [hnone, List.find?_cons_of_pos _ (by simp [beq_iff_eq, ht]),
        if_pos ht]
      rfl
    · have hx : ¬(x.title == t) = true := by
        simp only [beq_iff_eq]
        exact fun h => ht h.symm
      rw [List.find?_cons_of_neg _ (by exact hx),
        List.find?_nil, if_neg ht, Option.or_none]
  · rw [if_pos rfl]
    by_cases ht : t = x.title
    · rw [if_pos ht, ht]
      exact findByTitle_update_self d x
        (by simpa [List.any_eq_true, beq_iff_eq] using hany)
    · rw [if_neg ht]
      exact findByTitle_update_ne d x t ht

/-- Lookup through the whole fold: the last binding from the processed list
wins, old bindings survive untouched keys. -/
theorem findByTitle_foldl (l : List Finding) :
    ∀ (acc : List Finding) (t : String),
      findByTitle (List.foldl dictInsert acc l) t =
        (lastByTitle l t).or (findByTitle acc t) := by
  induction l with
  | nil =>
    intro acc t
    simp [lastByTitle, findByTitle, List.find?_nil, Option.none_or]
  | cons x xs ih =>
    intro acc t
    simp only [List.foldl_cons]
    rw [ih, findByTitle_dictInsert]
    have hlast : lastByTitle (x :: xs) t =
        (lastByTitle xs t).or (if x.title == t then some x else none) := by
      simp only [lastByTitle, findByTitle, List.reverse_cons, List.find?_append]
      congr 1
      cases h : x.title == t
      · rw [List.find?_cons_of_neg _ (by simp [h]), List.find?_nil,
          if_neg (by simp [h])]
      · rw [List.find?_cons_of_pos _ (by simp [h]), if_pos rfl]
    rw [hlast]
    cases hxs : lastByTitle xs t
    · simp only [Option.none_or]
      by_cases ht : t = x.title
      · rw [if_pos ht, if_pos (by simp [beq_iff_eq, ht])]
        rfl
      · have hx : (x.title == t) = false := by
          simp only [beq_eq_false_iff_ne, ne_eq]
          exact fun h => ht h.symm
        rw [if_neg ht, if_neg (by simp [hx]), Option.none_or]
    · simp [Option.or]

/-- Deduplication binds every title to the last finding carrying it. -/
theorem findByTitle_dedupe (l : List Finding) (t : String) :
    findByTitle (dedupe l) t = lastByTitle l t := by
  unfold dedupe
  rw [findByTitle_foldl]
  simp [findByTitle]

/-- In a list with pairwise-distinct titles, looking a member's title up
returns that member. -/
theorem findByTitle_of_mem (d : List Finding) (f : Finding)
    (hnd : (titles d).Nodup) (hf : f ∈ d) :
    findByTitle d f.title = some f := by
  induction d with
  | nil => simp at hf
  | cons a as ih =>
    rcases List.mem_cons.mp hf with rfl | hf'
    · simp [findByTitle, List.find?_cons]
    · have hnd' : (titles as).Nodup := by
        simpa [titles] using (List.nodup_cons.mp (by simpa [titles] using hnd)).2
      have hat : a.title ∉ titles as :=
        (List.nodup_cons.mp (by simpa [titles] using hnd)).1
      have hne : (a.title == f.title) = false := by
        simp only [beq_eq_false_iff_ne, ne_eq]
        intro h
        exact hat (h ▸ List.mem_map.mpr ⟨f, hf', rfl⟩)
      simp only [findByTitle, List.find?_cons, hne]
      exact ih hnd' hf'

/-- Every entry surviving deduplication is the last input occurrence of its
title. -/
theorem dedupe_keeps_last (l : List Finding) (f : Finding)
    (hf : f ∈ dedupe l) : lastByTitle l f.title = some f := by
  rw [← findByTitle_dedupe]
  exact findByTitle_of_mem _ _ (dedupe_titles_nodup l) hf

/-- The clamp keeps every score in the contract interval [1,10]. -/
theorem clampScore_bounds (t : Nat) :
    1 ≤ clampScore t ∧ clampScore t ≤ 10 := by
  unfold clampScore
  constructor
  · exact le_max_left 1 _
  · exact max_le (by norm_num) (min_le_left _ _)

/-- The shared scoring formula always lands in [1,10]. -/
theorem scoreOf_bounds (security bugs perf best : List Finding) :
    1 ≤ scoreOf security bugs perf best ∧
      scoreOf security bugs perf best ≤ 10 :=
  clampScore_bounds _

/-- Increasing the total penalty by d lowers the clamped score by at most d. -/
theorem clampScore_sub_le (t d : Nat) :
    clampScore t - clampScore (t + d) ≤ (d : Int) := by
  unfold clampScore
  have hcast : ((t + d : Nat) : Int) = (t : Int) + (d : Int) := by push_cast; ring
  rw [hcast]
  rcases le_total (10 - ((t : Int) + d)) 10 with h1 | h1 <;>
    rcases le_total (10 - (t : Int)) 10 with h2 | h2 <;>
      simp [min_def, max_def, h1, h2] <;> omega

/-- The ESLint categorizer never emits security or performance findings. -/
theorem eslintCats_empty (issues : List EslintIssue) :
    (eslintCatsOfIssues issues).security = [] ∧
      (eslintCatsOfIssues issues).performance = [] := by
  induction issues with
  | nil => exact ⟨rfl, rfl⟩
  | cons it rest ih =>
    simp only [eslintCatsOfIssues]
    split
    · exact ih
    · split
      · simpa using ih
      · split
        · simpa using ih
        · simpa using ih

/-- The ESLint block of the /review endpoint never contributes security or
performance findings, whatever the adapter outcome. -/
theorem eslintBlock_empty (out : Outcome (ToolResult EslintIssue)) :
    (eslintBlock out).cats.security = [] ∧
      (eslintBlock out).cats.performance = [] := by
  cases out with
  | raised e => exact ⟨rfl, rfl⟩
  | returned res =>
    simp only [eslintBlock]
    cases hok : res.ok
    · simp
    · simpa [eslintToSchema] using eslintCats_empty res.issues

/-- Bucket characterization of the Semgrep categorizer: console-rule records
map into best_practices in order, all others into security in order. -/
theorem semgrepCats_characterization (rs : List SemgrepResult) :
    (semgrepResultsToCategories rs).security =
        (rs.filter (fun f => !(isConsoleRule f))).map semgrepItemOf ∧
      (semgrepResultsToCategories rs).best_practices =
        (rs.filter isConsoleRule).map semgrepItemOf := by
  induction rs with
  | nil => exact ⟨rfl, rfl⟩
  | cons f rest ih =>
    unfold semgrepResultsToCategories
    cases hc : isConsoleRule f
    · simpa [List.filter_cons, hc] using ih
    · simpa [List.filter_cons, hc] using ih

/-- Splitting a list by a Bool predicate preserves the total length. -/
theorem length_filter_split (p : SemgrepResult → Bool)
    (rs : List SemgrepResult) :
    (rs.filter p).length + (rs.filter (fun f => !(p f))).length = rs.length := by
  induction rs with
  | nil => rfl
  | cons f rest ih =>
    cases hc : p f <;> simp [List.filter_cons, hc] <;> omega

/-- C1: for every review (HTTP /review and CI run), the recommendation is
computed by the priority rule: a high-severity security finding forces
block_merge regardless of the numeric score, otherwise score <= 6 yields
review_required, otherwise ok. Every HTTP response's verdict equals the rule
applied to its own security bucket and score, and every CI document's verdict
equals the rule applied to the deduplicated security bucket and its score. -/
theorem C1_recommendation_priority_rule :
    (∀ (language content : String) (py : Option String)
        (s : Outcome (List SemgrepResult))
        (e : Outcome (ToolResult EslintIssue))
        (b : Outcome (ToolResult BanditIssue)),
        (review language content py s e b).verdict =
          recommend (review language content py s e b).security
            (review language content py s e b).score) ∧
      (∀ (s : List SemgrepResult)
        (e : List (Outcome (ToolResult EslintIssue)))
        (b : Outcome (ToolResult BanditIssue)),
        (ciMain s e b).verdict =
          recommend (ciSecurityBucket s e b) (ciMain s e b).score) := by
  constructor
  · intro language content py s e b
    unfold review
    split
    · exact (by decide : Verdict.review_required = recommend [] 1)
    · split
      · exact (by decide : Verdict.review_required = recommend [] 2)
      · split
        · exact (by decide : Verdict.review_required = recommend [] 3)
        · cases s with
          | raised msg =>
            exact (by decide : Verdict.review_required = recommend [] 5)
          | returned rs => rfl
  · intro s e b
    rfl

/-- C6: for every input, including arbitrarily many high-severity findings,
the computed score satisfies 1 <= score <= 10 — for the shared scoring
formula, for every HTTP /review response and for every CI document. -/
theorem C6_score_within_bounds :
    (∀ security bugs perf best : List Finding,
        1 ≤ scoreOf security bugs perf best ∧
          scoreOf security bugs perf best ≤ 10) ∧
      (∀ (language content : String) (py : Option String)
        (s : Outcome (List SemgrepResult))
        (e : Outcome (ToolResult EslintIssue))
        (b : Outcome (ToolResult BanditIssue)),
        1 ≤ (review language content py s e b).score ∧
          (review language content py s e b).score ≤ 10) ∧
      (∀ (s : List SemgrepResult)
        (e : List (Outcome (ToolResult EslintIssue)))
        (b : Outcome (ToolResult BanditIssue)),
        1 ≤ (ciMain s e b).score ∧ (ciMain s e b).score ≤ 10) := by
  refine ⟨scoreOf_bounds, ?_, ?_⟩
  · intro language content py s e b
    unfold review
    split
    · exact (by decide : (1 : Int) ≤ 1 ∧ (1 : Int) ≤ 10)
    · split
      · exact (by decide : (1 : Int) ≤ 2 ∧ (2 : Int) ≤ 10)
      · split
        · exact (by decide : (1 : Int) ≤ 3 ∧ (3 : Int) ≤ 10)
        · cases s with
          | raised msg => exact (by decide : (1 : Int) ≤ 5 ∧ (5 : Int) ≤ 10)
          | returned rs => exact scoreOf_bounds _ _ _ _
  · intro s e b
    exact scoreOf_bounds _ _ _ _

/-- C7: the best-practices contribution to the score is
min(sum of per-finding penalties, 2): it is capped at 2, the score uses
exactly that capped value, any number of best-practice findings can lower the
score by at most 2, and ten medium best-practice findings yield score 8
(penalty 2, not 10). -/
theorem C7_best_practices_penalty_cap :
    (∀ best : List Finding, min (sumPenalty best) 2 ≤ 2) ∧
      (∀ security bugs perf best : List Finding,
        scoreOf security bugs perf best =
          clampScore (sumPenalty security + sumPenalty bugs +
            sumPenalty perf + min (sumPenalty best) 2)) ∧
      (∀ security bugs perf best : List Finding,
        scoreOf security bugs perf [] - scoreOf security bugs perf best ≤ 2) ∧
      scoreOf [] [] [] tenMediumBest = 8 := by
  refine ⟨fun best => min_le_right _ _, fun _ _ _ _ => rfl, ?_, by decide⟩
  intro security bugs perf best
  have hm : min (sumPenalty best) 2 ≤ 2 := min_le_right _ _
  have h := clampScore_sub_le
    (sumPenalty security + sumPenalty bugs + sumPenalty perf)
    (min (sumPenalty best) 2)
  have e1 : scoreOf security bugs perf [] =
      clampScore (sumPenalty security + sumPenalty bugs + sumPenalty perf) := by
    unfold scoreOf
    simp [sumPenalty]
  rw [e1]
  exact h.trans (by exact_mod_cast hm)

/-- C10: the ESLint categorizer returns empty security and performance lists
for every input; consequently every /review response has an empty performance
bucket with penalty 0, and the security bucket of every aggregated response
consists exactly of the Semgrep findings followed by the Bandit findings —
no linter finding ever reaches it. -/
theorem C10_no_linter_security_performance :
    (∀ res : ToolResult EslintIssue,
        (eslintToSchema res).security = [] ∧
          (eslintToSchema res).performance = []) ∧
      (∀ (language content : String) (py : Option String)
        (s : Outcome (List SemgrepResult))
        (e : Outcome (ToolResult EslintIssue))
        (b : Outcome (ToolResult BanditIssue)),
        (review language content py s e b).performance = [] ∧
          sumPenalty (review language content py s e b).performance = 0) ∧
      (∀ (isPy : Bool) (sr : List SemgrepResult)
        (eo : Outcome (ToolResult EslintIssue))
        (bo : Outcome (ToolResult BanditIssue)),
        (reviewAggregate isPy (.returned sr) eo bo).security =
          (semgrepResultsToCategories sr).security ++
            (if isPy then (banditBlock bo).2 else [])) := by
  refine ⟨fun res => eslintCats_empty res.issues, ?_, ?_⟩
  · intro language content py s e b
    have hp : (review language content py s e b).performance = [] := by
      unfold review
      split
      · rfl
      · split
        · rfl
        · split
          · rfl
          · cases s with
            | raised msg => rfl
            | returned rs => exact (eslintBlock_empty e).2
    exact ⟨hp, by rw [hp]; rfl⟩
  · intro isPy sr eo bo
    show (semgrepResultsToCategories sr).security ++
        (eslintBlock eo).cats.security ++
        (if isPy then banditBlock bo else (none, [])).2 = _
    rw [(eslintBlock_empty eo).1]
    cases isPy <;> simp

/-- Distinct titles survive truncation of a bucket list. -/
theorem nodup_titles_take (l : List Finding) (n : Nat)
    (h : (titles l).Nodup) : (titles (l.take n)).Nodup := by
  have he : titles (l.take n) = (titles l).take n := List.map_take _ l n
  rw [he]
  exact List.Nodup.sublist (List.take_sublist n _) h

/-- C2: the HTTP scoring penalizes duplicate titles once per occurrence, not
once per title: two Semgrep hits of the same rule (same title, two lines)
produce score 6, while the same response's deduplicated security bucket has a
single entry and would yield score 8 — the dedup-by-title result feeds only
the summary, not the penalties. -/
theorem C2_duplicate_titles_double_penalized :
    dupRunResponse.score = 6 ∧
      titles dupRunResponse.security =
        ["javascript.lang.security.audit.eval-detected",
          "javascript.lang.security.audit.eval-detected"] ∧
      (dedupe dupRunResponse.security).length = 1 ∧
      scoreOf (dedupe dupRunResponse.security) dupRunResponse.bugs
        dupRunResponse.performance dupRunResponse.best_practices = 8 := by
  decide

/-- C3 counterexample: a Semgrep record whose rule id matches no known rule
class lands in the security bucket, not in best_practices as claimed. -/
theorem C3_unmatched_rule_counterexample :
    (semgrepResultsToCategories [unmatchedSemgrepResult]).best_practices = [] ∧
      titles (semgrepResultsToCategories [unmatchedSemgrepResult]).security =
        ["python.lang.correctness.useless-comparison"] := by
  decide

/-- C3 amended: the Semgrep categorizer sends exactly the records whose
lowercased rule id contains "no-console" or "console-log" to best_practices
and every other record — unmatched rules included — to security; no finding
is dropped (the two buckets' lengths sum to the input length). -/
theorem C3_unmatched_rule_amended (rs : List SemgrepResult) :
    (semgrepResultsToCategories rs).security =
        (rs.filter (fun f => !(isConsoleRule f))).map semgrepItemOf ∧
      (semgrepResultsToCategories rs).best_practices =
        (rs.filter isConsoleRule).map semgrepItemOf ∧
      (semgrepResultsToCategories rs).security.length +
          (semgrepResultsToCategories rs).best_practices.length = rs.length := by
  obtain ⟨h1, h2⟩ := semgrepCats_characterization rs
  refine ⟨h1, h2, ?_⟩
  rw [h1, h2]
  simp only [List.length_map]
  rw [Nat.add_comm]
  exact length_filter_split isConsoleRule rs

/-- C4: a Semgrep failure is not isolated: when Semgrep raises while ESLint
and Bandit both succeed with findings, the endpoint returns the degraded
fallback report (score 5, no findings, analysis_failed note) instead of a
normal report carrying the successful adapters' findings; by contrast an
ESLint failure is isolated and the report keeps the other tools' findings. -/
theorem C4_semgrep_failure_not_isolated :
    semgrepFailResponse = fallbackResponse semgrepFailMsg ∧
      semgrepFailResponse.ai_used = false ∧
      semgrepFailResponse.score = 5 ∧
      semgrepFailResponse.bugs = [] ∧
      semgrepFailResponse.security = [] ∧
      (eslintBlock (.returned eslintOkResult)).cats.bugs =
        [{ title := "eslint.semi"
           description := "Missing semicolon. (main.js:3)"
           severity := .high }] ∧
      (banditBlock (.returned banditOkResult)).2 =
        [{ title := "bandit.B602"
           description := "subprocess_popen_with_shell_equals_true: subprocess call with shell=True identified (main.py:7)"
           severity := .high }] ∧
      (∀ (sr : List SemgrepResult) (em : String)
        (bo : Outcome (ToolResult BanditIssue)),
        (reviewAggregate true (.returned sr) (.raised em) bo).ai_used = true ∧
          (reviewAggregate true (.returned sr) (.raised em) bo).security =
            (semgrepResultsToCategories sr).security ++ (banditBlock bo).2) := by
  refine ⟨by decide, by decide, by decide, by decide, by decide, by decide,
    by decide, ?_⟩
  intro sr em bo
  refine ⟨rfl, ?_⟩
  show (semgrepResultsToCategories sr).security ++
      (eslintBlock (.raised em)).cats.security ++
      (if true then banditBlock bo else (none, [])).2 = _
  simp [eslintBlock]

/-- C5 counterexample: the HTTP response's security bucket is not
deduplicated — two Semgrep hits of one rule reach the caller as two entries
sharing a title. -/
theorem C5_http_bucket_not_deduped_counterexample :
    dupRunResponse.security.length = 2 ∧
      ¬(titles dupRunResponse.security).Nodup := by
  decide

/-- C5 amended: only the CI JSON document has deduplicated, 50-capped bucket
lists with the cap applied after deduplication and scoring (the score is the
shared formula on the uncapped deduplicated buckets); the HTTP response
returns the merged categorized lists without dedup or cap. -/
theorem C5_cap_after_dedup_amended :
    (∀ (s : List SemgrepResult) (e : List (Outcome (ToolResult EslintIssue)))
      (b : Outcome (ToolResult BanditIssue)),
      (ciMain s e b).security = (ciSecurityBucket s e b).take 50 ∧
        (ciMain s e b).bugs = (ciBugsBucket e).take 50 ∧
        (ciMain s e b).best_practices = (ciBestBucket s e).take 50 ∧
        (ciMain s e b).performance = (ciPerfBucket e).take 50 ∧
        (titles (ciMain s e b).security).Nodup ∧
        (titles (ciMain s e b).bugs).Nodup ∧
        (titles (ciMain s e b).best_practices).Nodup ∧
        (titles (ciMain s e b).performance).Nodup ∧
        (ciMain s e b).security.length ≤ 50 ∧
        (ciMain s e b).bugs.length ≤ 50 ∧
        (ciMain s e b).best_practices.length ≤ 50 ∧
        (ciMain s e b).performance.length ≤ 50 ∧
        (ciMain s e b).score =
          scoreOf (ciSecurityBucket s e b) (ciBugsBucket e) (ciPerfBucket e)
            (ciBestBucket s e)) ∧
      (∀ (isPy : Bool) (sr : List SemgrepResult)
        (eo : Outcome (ToolResult EslintIssue))
        (bo : Outcome (ToolResult BanditIssue)),
        (reviewAggregate isPy (.returned sr) eo bo).security =
            (semgrepResultsToCategories sr).security ++
              (eslintBlock eo).cats.security ++
              (if isPy then banditBlock bo else (none, [])).2 ∧
          (reviewAggregate isPy (.returned sr) eo bo).bugs =
            (eslintBlock eo).cats.bugs ∧
          (reviewAggregate isPy (.returned sr) eo bo).best_practices =
            (semgrepResultsToCategories sr).best_practices ++
              (eslintBlock eo).cats.best_practices ∧
          (reviewAggregate isPy (.returned sr) eo bo).performance =
            (eslintBlock eo).cats.performance) := by
  constructor
  · intro s e b
    refine ⟨rfl, rfl, rfl, rfl, ?_, ?_, ?_, ?_, ?_, ?_, ?_, ?_, rfl⟩
    · exact nodup_titles_take _ 50 (dedupe_titles_nodup _)
    · exact nodup_titles_take _ 50 (dedupe_titles_nodup _)
    · exact nodup_titles_take _ 50 (dedupe_titles_nodup _)
    · exact nodup_titles_take _ 50 (dedupe_titles_nodup _)
    · exact List.length_take_le 50 _
    · exact List.length_take_le 50 _
    · exact List.length_take_le 50 _
    · exact List.length_take_le 50 _
  · intro isPy sr eo bo
    exact ⟨rfl, rfl, rfl, rfl⟩

/-- C8 counterexample: the deduplicator keeps the last occurrence's content,
not the first: with two findings sharing a title, the retained entry is the
second one. -/
theorem C8_first_occurrence_counterexample :
    dedupe [dupFirst, dupSecond] = [dupSecond] ∧
      dedupe [dupFirst, dupSecond] ≠ [dupFirst] := by
  decide

/-- C8 amended: the deduplicator returns exactly one entry per distinct
title (the output titles are pairwise distinct and are precisely the input
titles), and when findings share a title the retained entry's content is the
last occurrence in input order. -/
theorem C8_last_wins_amended (items : List Finding) :
    (titles (dedupe items)).Nodup ∧
      (∀ t, t ∈ titles (dedupe items) ↔ t ∈ titles items) ∧
      (∀ f ∈ dedupe items, lastByTitle items f.title = some f) :=
  ⟨dedupe_titles_nodup items, fun t => mem_titles_dedupe items t,
    fun f hf => dedupe_keeps_last items f hf⟩

/-- C9: for every /review request whose trimmed, lowercased language is
python and whose non-blank content fails the Python AST parse, the endpoint
returns the syntax-error response — score 2, review_required, exactly one
high-severity bugs finding titled "Syntax Error", the other three buckets
empty — independently of the tool adapters, which are never consulted. -/
theorem C9_python_syntax_error_short_circuit
    (language content err : String)
    (s : Outcome (List SemgrepResult)) (e : Outcome (ToolResult EslintIssue))
    (b : Outcome (ToolResult BanditIssue))
    (hpy : isPython language = true) (hne : trimStr content ≠ "") :
    review language content (some err) s e b = syntaxErrorResponse err ∧
      (review language content (some err) s e b).score = 2 ∧
      (review language content (some err) s e b).verdict = .review_required ∧
      (review language content (some err) s e b).bugs =
        [{ title := "Syntax Error", description := err, severity := .high }] ∧
      (review language content (some err) s e b).security = [] ∧
      (review language content (some err) s e b).performance = [] ∧
      (review language content (some err) s e b).best_practices = [] := by
  have h : review language content (some err) s e b =
      syntaxErrorResponse err := by
    unfold review
    rw [if_neg hne, hpy, if_pos rfl]
  refine ⟨h, ?_, ?_, ?_, ?_, ?_, ?_⟩ <;> rw [h] <;> rfl

/-- C9 witness: concrete python request with unbalanced parenthesis content,
raising adapters, and a parse error message; both hypotheses hold by
computation and the endpoint returns the syntax-error response. -/
theorem C9_python_syntax_witness :
    isPython "python" = true ∧ trimStr "x = (" ≠ "" ∧
      review "python" "x = (" (some "Python syntax error at line 1: unexpected EOF while parsing")
          (.raised "boom") (.raised "boom") (.raised "boom") =
        syntaxErrorResponse "Python syntax error at line 1: unexpected EOF while parsing" :=
  ⟨by decide, by decide,
    (C9_python_syntax_error_short_circuit "python" "x = ("
      "Python syntax error at line 1: unexpected EOF while parsing"
      (.raised "boom") (.raised "boom") (.raised "boom")
      (by decide) (by decide)).1⟩
